import Mathlib

/-!
Shallow embedding of the terminal session backend found in
`src-tauri/src/backend/mod.rs` of the `tbd-rewrite` repository, together
with theorems checking the natural-language specification against it.

Modelling conventions:
* `f32` values are embedded as rationals (`ℚ`); the Rust saturating cast
  `as u16` from a float becomes an explicit clamp into `[0, 65535]`.
* The external terminal model (`alacritty_terminal::Term`) is embedded as an
  abstract state carrying its mode flags, an opaque grid and cursor cell
  (type parameters `G`, `C`), and a trace of the mutating calls the backend
  issues against it (`scroll_display`, `resize`).
* The process I/O channel (`Notifier`) is embedded as two traces on the
  backend state: `written`, the list of `notify` byte buffers, and
  `ptyResizes`, the list of `on_resize` window sizes.
* Fallible external construction steps (`tty::new`, `EventLoop::new`) are
  passed in as `Except` values threaded exactly in source order.
-/

namespace TbdRewrite

/-- Rust `f32` values, embedded as rationals. -/
abbrev F32 := ℚ

/-- Mirrors `Size<T>` from `backend/mod.rs` (fields `width`, `height`). -/
structure Size (α : Type) where
  width : α
  height : α
deriving Repr, DecidableEq

/-- Rust saturating cast `as u16` applied to an `f32` that has already been
floored (and, for the cell sizes, the trunc-toward-zero cast: for
nonnegative inputs trunc and floor agree, and negative inputs clamp to 0
either way). Values at or above 65536 saturate to 65535, negative values
clamp to 0. -/
def f32ToU16 (q : F32) : Nat := min 65535 ⌊q⌋.toNat

/-- Mirrors `(num / den as f32).floor() as u16` from `Backend::resize`,
where `den` is a stored `u16` cell dimension (exactly representable in
`f32`). Division by a zero cell dimension follows IEEE `f32` semantics:
positive/0 = +inf, which the saturating cast sends to 65535; 0/0 = NaN and
negative/0 = -inf, which the cast sends to 0. -/
def divFloorAsU16 (num : F32) (den : Nat) : Nat :=
  if den = 0 then (if 0 < num then 65535 else 0)
  else min 65535 ⌊num / (den : F32)⌋.toNat

/-- Mirrors `TerminalSize` from `backend/mod.rs`: `u16` fields are `Nat`
(kept in range by the clamping casts), `f32` layout fields are `F32`. -/
structure TerminalSize where
  cell_width : Nat
  cell_height : Nat
  num_cols : Nat
  num_lines : Nat
  layout_width : F32
  layout_height : F32
deriving Repr, DecidableEq

/-- Mirrors `impl Default for TerminalSize`. -/
def TerminalSize.default : TerminalSize :=
  { cell_width := 1, cell_height := 1, num_cols := 80, num_lines := 50
    layout_width := 80, layout_height := 50 }

/-- Mirrors `WindowSize` (the payload of `Notifier::on_resize`), built via
`impl From<TerminalSize> for WindowSize`. -/
structure WindowSize where
  num_lines : Nat
  num_cols : Nat
  cell_width : Nat
  cell_height : Nat
deriving Repr, DecidableEq

/-- Mirrors `impl From<TerminalSize> for WindowSize`. -/
def TerminalSize.toWindowSize (sz : TerminalSize) : WindowSize :=
  { num_lines := sz.num_lines, num_cols := sz.num_cols
    cell_width := sz.cell_width, cell_height := sz.cell_height }

/-- The `if let Some(size) = layout_size` update at the top of
`Backend::resize`. -/
def TerminalSize.applyLayout (sz : TerminalSize) : Option (Size F32) → TerminalSize
  | some s => { sz with layout_height := s.height, layout_width := s.width }
  | none => sz

/-- The `if let Some(size) = font_measure` update in `Backend::resize`
(`size.height as u16`, `size.width as u16`). -/
def TerminalSize.applyFont (sz : TerminalSize) : Option (Size F32) → TerminalSize
  | some s => { sz with cell_height := f32ToU16 s.height, cell_width := f32ToU16 s.width }
  | none => sz

/-- The recomputed line count `(layout_height / cell_height as f32).floor() as u16`. -/
def TerminalSize.candLines (sz : TerminalSize) : Nat :=
  divFloorAsU16 sz.layout_height sz.cell_height

/-- The recomputed column count `(layout_width / cell_width as f32).floor() as u16`. -/
def TerminalSize.candCols (sz : TerminalSize) : Nat :=
  divFloorAsU16 sz.layout_width sz.cell_width

/-- The two mode flags of the external model that `Backend::scroll` queries
(`TermMode::ALTERNATE_SCROLL`, `TermMode::ALT_SCREEN`); the bitflags test
`mode().contains(ALTERNATE_SCROLL | ALT_SCREEN)` requires both to be set. -/
structure TermMode where
  altScreen : Bool
  altScroll : Bool
deriving Repr, DecidableEq

/-- A `scroll_display` call issued against the external terminal model:
`Scroll::Bottom` or `Scroll::Delta(n)`. -/
inductive ScrollOp where
  | bottom : ScrollOp
  | delta (n : Int) : ScrollOp
deriving Repr, DecidableEq

/-- Abstract state of the external `Term` model: its mode flags, opaque grid
and cursor cell, and the trace of mutating calls the backend issued against
it (`scrollOps` for `scroll_display`, `resizeOps` for `resize`, each
recorded most-recent-last; `resizeOps` entries are `(cols, lines)` matching
`TermSize::new(num_cols, num_lines)`). -/
structure Term (G C : Type) where
  mode : TermMode
  grid : G
  cursor : C
  scrollOps : List ScrollOp
  resizeOps : List (Nat × Nat)
deriving Repr, DecidableEq

/-- Mirrors `RenderableContent` from `backend/mod.rs`. -/
structure RenderableContent (G C : Type) where
  grid : G
  cursor : C
deriving Repr, DecidableEq

/-- Mouse protocol modes, mirroring `MouseMode`. -/
inductive MouseMode where
  | Sgr : MouseMode
  | Normal : MouseMode
deriving Repr, DecidableEq

/-- Mirrors the `MouseButton` enum of `backend/mod.rs`. -/
inductive MouseButton where
  | LeftButton : MouseButton
  | MiddleButton : MouseButton
  | RightButton : MouseButton
  | LeftMove : MouseButton
  | MiddleMove : MouseButton
  | RightMove : MouseButton
  | NoneMove : MouseButton
  | ScrollUp : MouseButton
  | ScrollDown : MouseButton
  | Other : MouseButton
deriving Repr, DecidableEq

/-- Numeric discriminants of `MouseButton` as read by `button as u8` in
`Backend::sgr_mouse_report`. -/
def MouseButton.wire : MouseButton → Nat
  | .LeftButton => 0
  | .MiddleButton => 1
  | .RightButton => 2
  | .LeftMove => 32
  | .MiddleMove => 33
  | .RightMove => 34
  | .NoneMove => 35
  | .ScrollUp => 64
  | .ScrollDown => 65
  | .Other => 99

/-- Mirrors `alacritty_terminal::index::Point`: `line` is an `i32`-backed
`Line`, `column` a `usize`-backed `Column`. -/
structure Point where
  line : Int
  column : Nat
deriving Repr, DecidableEq

/-- Events delivered by the external model listener
(`alacritty_terminal::event::Event`). `Wakeup`, `Exit` and `Title` are the
variants `Backend::process_command` matches on; `ChildExit` and the numeric
`other` tag stand for every remaining variant, all of which fall into the
source's catch-all `_ => {}` arm. -/
inductive Event where
  | Wakeup : Event
  | Exit : Event
  | Title (title : String) : Event
  | ChildExit (code : Int) : Event
  | OtherKind (tag : Nat) : Event
deriving Repr, DecidableEq

/-- Modelled from the spec: the file defining the `Action` enum
(`src-tauri/src/actions.rs`) is not among the provided sources; the spec
describes it as "a closed variant set returned from dispatch ...: no-op,
request-redraw, change-title(text), shut down", and `backend/mod.rs` names
the variants `Action::Ignore`, `Action::Redraw`, `Action::ChangeTitle(title)`
and `Action::Shutdown`. -/
inductive Action where
  | Ignore : Action
  | Redraw : Action
  | ChangeTitle (title : String) : Action
  | Shutdown : Action
deriving Repr, DecidableEq

/-- Mirrors the `BackendCommand` enum. Byte vectors are `List Nat`
(each entry a byte value), scroll deltas are `i32` values embedded in `Int`. -/
inductive BackendCommand where
  | Write (input : List Nat) : BackendCommand
  | Scroll (delta : Int) : BackendCommand
  | Resize (layout_size : Option (Size F32)) (font_measure : Option (Size F32)) : BackendCommand
  | MouseReport (mode : MouseMode) (button : MouseButton) (point : Point) (pressed : Bool) : BackendCommand
  | ProcessAlacrittyEvent (event : Event) : BackendCommand
deriving Repr, DecidableEq

/-- State of the `Backend` struct, with the external notifier represented by
the traces `written` (each `Notifier::notify` byte buffer, oldest first) and
`ptyResizes` (each `Notifier::on_resize` window size). -/
structure Backend (G C : Type) where
  term : Term G C
  size : TerminalSize
  written : List (List Nat)
  ptyResizes : List WindowSize
  last_content : RenderableContent G C
deriving Repr, DecidableEq

variable {G C : Type}

/-- ASCII bytes of a string (the strings produced by the backend are all
ASCII, so `str::as_bytes` coincides with the code points). -/
def asciiBytes (s : String) : List Nat := s.toList.map Char.toNat

/-- The `format!` string of `Backend::sgr_mouse_report`:
`"\x1b[<{};{};{}{}"` applied to `button as u8`, `point.column + 1`,
`point.line + 1` and `'M'`/`'m'`. -/
def sgrMouseMsg (point : Point) (button : MouseButton) (pressed : Bool) : String :=
  "\x1b[<" ++ toString button.wire ++ ";" ++ toString (point.column + 1) ++ ";"
    ++ toString (point.line + 1) ++ (if pressed then "M" else "m")

/-- Mirrors `Backend::sgr_mouse_report`: formats the SGR report and sends it
through `Notifier::notify`. -/
def Backend.sgr_mouse_report (self : Backend G C) (point : Point) (button : MouseButton)
    (pressed : Bool) : Backend G C :=
  { self with written := self.written ++ [asciiBytes (sgrMouseMsg point button pressed)] }

/-- Mirrors `Backend::write`: forwards the bytes to `Notifier::notify`. -/
def Backend.write (self : Backend G C) (input : List Nat) : Backend G C :=
  { self with written := self.written ++ [input] }

/-- Number of iterations of the `for _ in 0..delta_value.abs()` loop in
`Backend::scroll`. `delta_value` is an `i32`; in release builds
`i32::MIN.abs()` wraps back to `i32::MIN`, and a `0..n` range with a
negative bound runs zero iterations, so the minimum value yields 0. -/
def i32AbsIter (d : Int) : Nat := if d = -(2 ^ 31) then 0 else d.natAbs

/-- Mirrors `Backend::scroll`. When the model mode contains both
`ALTERNATE_SCROLL` and `ALT_SCREEN`, pushes `ESC 'O' ('A'|'B')` per unit of
delta into one `notify` buffer; otherwise issues
`grid_mut().scroll_display(Scroll::Delta(delta))` against the model. A zero
delta does nothing. -/
def Backend.scroll (self : Backend G C) (delta : Int) : Backend G C :=
  if delta ≠ 0 then
    if self.term.mode.altScroll && self.term.mode.altScreen then
      let lineCmd : Nat := if 0 < delta then 65 else 66
      let content := List.flatten (List.replicate (i32AbsIter delta) [27, 79, lineCmd])
      { self with written := self.written ++ [content] }
    else
      { self with term :=
          { self.term with scrollOps := self.term.scrollOps ++ [ScrollOp.delta delta] } }
  else self

/-- Mirrors `Backend::resize`: record whichever optional sizes are present,
recompute candidate counts, and only when both are positive store them, call
`Notifier::on_resize`, and resize the terminal model. -/
def Backend.resize (self : Backend G C) (layout_size font_measure : Option (Size F32)) :
    Backend G C :=
  let sz := (self.size.applyLayout layout_size).applyFont font_measure
  if 0 < sz.candLines ∧ 0 < sz.candCols then
    let sz2 := { sz with num_lines := sz.candLines, num_cols := sz.candCols }
    { self with
        size := sz2
        ptyResizes := self.ptyResizes ++ [sz2.toWindowSize]
        term := { self.term with
          resizeOps := self.term.resizeOps ++ [(sz2.num_cols, sz2.num_lines)] } }
  else
    { self with size := sz }

/-- Mirrors `Backend::internal_sync`: copy the model's cursor cell and grid
into the stored snapshot. -/
def Backend.internal_sync (self : Backend G C) : Backend G C :=
  { self with last_content := { grid := self.term.grid, cursor := self.term.cursor } }

/-- Mirrors `Backend::sync`: lock the model and run `internal_sync` (the
lock is implicit in this sequential embedding, where every operation runs
under mutual exclusion). -/
def Backend.sync (self : Backend G C) : Backend G C :=
  self.internal_sync

/-- Mirrors `Backend::renderable_content`. -/
def Backend.renderable_content (self : Backend G C) : RenderableContent G C :=
  self.last_content

/-- Mirrors `Backend::process_command`: returns the updated backend state
and the `Action` handed back to the caller. -/
def Backend.process_command (self : Backend G C) (cmd : BackendCommand) :
    Backend G C × Action :=
  match cmd with
  | .ProcessAlacrittyEvent event =>
    match event with
    | .Wakeup => (self.internal_sync, Action.Redraw)
    | .Exit => (self, Action.Shutdown)
    | .Title title => (self, Action.ChangeTitle title)
    | .ChildExit _ => (self, Action.Ignore)
    | .OtherKind _ => (self, Action.Ignore)
  | .Write input =>
    let s1 := self.write input
    ({ s1 with term := { s1.term with scrollOps := s1.term.scrollOps ++ [ScrollOp.bottom] } },
     Action.Ignore)
  | .Scroll delta => ((self.scroll delta).internal_sync, Action.Redraw)
  | .Resize layout_size font_measure =>
    ((self.resize layout_size font_measure).internal_sync, Action.Redraw)
  | .MouseReport mode button point pressed =>
    match mode with
    | .Sgr => (self.sgr_mouse_report point button pressed, Action.Redraw)
    | .Normal => (self, Action.Redraw)

/-- The successfully constructed backend of `Backend::new`: the initial
`TerminalSize` takes its cell dimensions from the font size (`as u16`
casts) and everything else from `TerminalSize::default()`; the model starts
with the externally determined mode/grid/cursor, and the initial snapshot
copies that grid and cursor cell. -/
def Backend.mkInitial (font_size : Size F32) (g : G) (c : C) (m : TermMode) : Backend G C :=
  let terminal_size : TerminalSize :=
    { TerminalSize.default with
        cell_width := f32ToU16 font_size.width
        cell_height := f32ToU16 font_size.height }
  { term := { mode := m, grid := g, cursor := c, scrollOps := [], resizeOps := [] }
    size := terminal_size
    written := []
    ptyResizes := []
    last_content := { grid := g, cursor := c } }

/-- Mirrors `Backend::new` with its two fallible external steps threaded in
source order: `tty::new(...)?` (spawning the pty/shell) and
`EventLoop::new(...)?` (creating the pty event loop). The pure steps between
them (building `TerminalSize`, `Term::new`, the initial snapshot) are
collected in `Backend.mkInitial`. -/
def Backend.tryNew {E : Type} (spawnPty mkEventLoop : Except E Unit)
    (font_size : Size F32) (g : G) (c : C) (m : TermMode) : Except E (Backend G C) := do
  let _ ← spawnPty
  let _ ← mkEventLoop
  pure (Backend.mkInitial font_size g c m)

/-- Reachable backend states: a freshly constructed backend, any state after
a dispatched command, any state after a renderer `sync` tick, and any state
after the background I/O driver mutated the shared terminal model (it feeds
process output into the model but never touches the backend's own fields). -/
inductive Reachable : Backend G C → Prop where
  | construct (font_size : Size F32) (g : G) (c : C) (m : TermMode) :
      Reachable (Backend.mkInitial font_size g c m)
  | dispatch (b : Backend G C) (cmd : BackendCommand) :
      Reachable b → Reachable (b.process_command cmd).1
  | syncTick (b : Backend G C) : Reachable b → Reachable b.sync
  | modelFeed (b : Backend G C) (t : Term G C) :
      Reachable b → Reachable { b with term := t }

/-! Helper lemmas shared by the claim theorems. -/

theorem applyLayout_num_cols (sz : TerminalSize) (l : Option (Size F32)) :
    (sz.applyLayout l).num_cols = sz.num_cols := by
  cases l <;> rfl

theorem applyLayout_num_lines (sz : TerminalSize) (l : Option (Size F32)) :
    (sz.applyLayout l).num_lines = sz.num_lines := by
  cases l <;> rfl

theorem applyFont_num_cols (sz : TerminalSize) (f : Option (Size F32)) :
    (sz.applyFont f).num_cols = sz.num_cols := by
  cases f <;> rfl

theorem applyFont_num_lines (sz : TerminalSize) (f : Option (Size F32)) :
    (sz.applyFont f).num_lines = sz.num_lines := by
  cases f <;> rfl

theorem applyBoth_num_cols (sz : TerminalSize) (l f : Option (Size F32)) :
    ((sz.applyLayout l).applyFont f).num_cols = sz.num_cols := by
  rw [applyFont_num_cols, applyLayout_num_cols]

theorem applyBoth_num_lines (sz : TerminalSize) (l f : Option (Size F32)) :
    ((sz.applyLayout l).applyFont f).num_lines = sz.num_lines := by
  rw [applyFont_num_lines, applyLayout_num_lines]

theorem candCols_congr (x y : TerminalSize)
    (h1 : x.layout_width = y.layout_width) (h2 : x.cell_width = y.cell_width) :
    x.candCols = y.candCols := by
  unfold TerminalSize.candCols
  rw [h1, h2]

theorem candLines_congr (x y : TerminalSize)
    (h1 : x.layout_height = y.layout_height) (h2 : x.cell_height = y.cell_height) :
    x.candLines = y.candLines := by
  unfold TerminalSize.candLines
  rw [h1, h2]

theorem applyBoth_geom_congr (x y : TerminalSize) (l f : Option (Size F32))
    (h1 : x.layout_width = y.layout_width) (h2 : x.layout_height = y.layout_height)
    (h3 : x.cell_width = y.cell_width) (h4 : x.cell_height = y.cell_height) :
    ((x.applyLayout l).applyFont f).layout_width = ((y.applyLayout l).applyFont f).layout_width
    ∧ ((x.applyLayout l).applyFont f).layout_height = ((y.applyLayout l).applyFont f).layout_height
    ∧ ((x.applyLayout l).applyFont f).cell_width = ((y.applyLayout l).applyFont f).cell_width
    ∧ ((x.applyLayout l).applyFont f).cell_height = ((y.applyLayout l).applyFont f).cell_height := by
  cases l <;> cases f <;>
    simp [TerminalSize.applyLayout, TerminalSize.applyFont, h1, h2, h3, h4]

theorem resize_size_geom {G C : Type} (b : Backend G C) (l f : Option (Size F32)) :
    (b.resize l f).size.layout_width = ((b.size.applyLayout l).applyFont f).layout_width
    ∧ (b.resize l f).size.layout_height = ((b.size.applyLayout l).applyFont f).layout_height
    ∧ (b.resize l f).size.cell_width = ((b.size.applyLayout l).applyFont f).cell_width
    ∧ (b.resize l f).size.cell_height = ((b.size.applyLayout l).applyFont f).cell_height := by
  by_cases hp : 0 < ((b.size.applyLayout l).applyFont f).candLines
      ∧ 0 < ((b.size.applyLayout l).applyFont f).candCols <;>
    simp [Backend.resize, hp]

theorem resize_counts {G C : Type} (b : Backend G C) (l f : Option (Size F32)) :
    ((0 < ((b.size.applyLayout l).applyFont f).candLines
        ∧ 0 < ((b.size.applyLayout l).applyFont f).candCols)
      → (b.resize l f).size.num_cols = ((b.size.applyLayout l).applyFont f).candCols
        ∧ (b.resize l f).size.num_lines = ((b.size.applyLayout l).applyFont f).candLines)
    ∧ (¬(0 < ((b.size.applyLayout l).applyFont f).candLines
        ∧ 0 < ((b.size.applyLayout l).applyFont f).candCols)
      → (b.resize l f).size.num_cols = b.size.num_cols
        ∧ (b.resize l f).size.num_lines = b.size.num_lines) := by
  constructor
  · intro h
    simp [Backend.resize, h]
  · intro h
    simp [Backend.resize, h, applyBoth_num_cols, applyBoth_num_lines]

/-! Claim theorems. -/

/-- C1: for every zero-based point (column, row), button and pressed flag,
dispatching `MouseReport` in SGR mode writes exactly the byte sequence
`ESC '[' '<'` followed by the decimal wire number of the button, `';'`,
column+1, `';'`, row+1, terminated by `'M'` when pressed and `'m'` when
released, with the wire numbering left/middle/right = 0/1/2, drag-move
variants = 32/33/34, no-button move = 35, wheel up/down = 64/65,
unclassified = 99; in particular a left-button press at (column=5, row=10)
produces exactly the bytes of `"\x1b[<0;6;11M"`. -/
theorem sgr_mouse_report_encoding {G C : Type} (b : Backend G C) (button : MouseButton)
    (col row : Nat) (pressed : Bool) :
    ((b.process_command (.MouseReport .Sgr button ⟨(row : Int), col⟩ pressed)).1.written
      = b.written ++ [asciiBytes ("\x1b[<" ++ toString button.wire ++ ";"
          ++ toString (col + 1) ++ ";" ++ toString (row + 1)
          ++ (if pressed then "M" else "m"))])
    ∧ MouseButton.wire .LeftButton = 0 ∧ MouseButton.wire .MiddleButton = 1
    ∧ MouseButton.wire .RightButton = 2 ∧ MouseButton.wire .LeftMove = 32
    ∧ MouseButton.wire .MiddleMove = 33 ∧ MouseButton.wire .RightMove = 34
    ∧ MouseButton.wire .NoneMove = 35 ∧ MouseButton.wire .ScrollUp = 64
    ∧ MouseButton.wire .ScrollDown = 65 ∧ MouseButton.wire .Other = 99
    ∧ ((b.process_command (.MouseReport .Sgr .LeftButton ⟨10, 5⟩ true)).1.written
        = b.written ++ [[27, 91, 60, 48, 59, 54, 59, 49, 49, 77]]) := by
  refine ⟨rfl, rfl, rfl, rfl, rfl, rfl, rfl, rfl, rfl, rfl, rfl, ?_⟩
  have h : asciiBytes (sgrMouseMsg ⟨10, 5⟩ MouseButton.LeftButton true)
      = [27, 91, 60, 48, 59, 54, 59, 49, 49, 77] := by decide
  show b.written ++ [asciiBytes (sgrMouseMsg ⟨10, 5⟩ MouseButton.LeftButton true)]
      = b.written ++ [[27, 91, 60, 48, 59, 54, 59, 49, 49, 77]]
  rw [h]

/-- C6: dispatching a process-model notification behaves per kind: `Wakeup`
re-synchronizes the snapshot and returns `Redraw`; `Exit` returns
`Shutdown`; `Title t` returns `ChangeTitle t`; every other kind returns the
no-op action and leaves the backend state unchanged. -/
theorem process_event_actions {G C : Type} (b : Backend G C) :
    (b.process_command (.ProcessAlacrittyEvent .Wakeup)
      = ({ b with last_content := { grid := b.term.grid, cursor := b.term.cursor } },
         Action.Redraw))
    ∧ (b.process_command (.ProcessAlacrittyEvent .Exit) = (b, Action.Shutdown))
    ∧ (∀ title, b.process_command (.ProcessAlacrittyEvent (.Title title))
        = (b, Action.ChangeTitle title))
    ∧ (∀ code, b.process_command (.ProcessAlacrittyEvent (.ChildExit code))
        = (b, Action.Ignore))
    ∧ (∀ tag, b.process_command (.ProcessAlacrittyEvent (.OtherKind tag))
        = (b, Action.Ignore)) := by
  exact ⟨rfl, rfl, fun _ => rfl, fun _ => rfl, fun _ => rfl⟩

/-- C7: dispatching `Write(bytes)` sends exactly those bytes, unmodified, as
one notify call to the process I/O channel, forces the model's scroll
position to the bottom, leaves the stored snapshot untouched (no re-sync),
and returns the no-op action. -/
theorem write_command_behavior {G C : Type} (b : Backend G C) (input : List Nat) :
    ((b.process_command (.Write input)).1.written = b.written ++ [input])
    ∧ ((b.process_command (.Write input)).1.term.scrollOps
        = b.term.scrollOps ++ [ScrollOp.bottom])
    ∧ ((b.process_command (.Write input)).1.last_content = b.last_content)
    ∧ ((b.process_command (.Write input)).1.size = b.size)
    ∧ ((b.process_command (.Write input)).2 = Action.Ignore) := by
  exact ⟨rfl, rfl, rfl, rfl, rfl⟩

/-- C10: `sync` installs as the new snapshot exactly the pair of the grid
and the cursor cell read from the terminal model in one and the same state
(so the stored snapshot never pairs a grid from one instant with a cursor
from another), replaces the snapshot as a whole, and changes nothing else
in the backend. -/
theorem sync_snapshot_atomic {G C : Type} (b : Backend G C) :
    (b.sync.renderable_content = { grid := b.term.grid, cursor := b.term.cursor })
    ∧ (b.sync = { b with last_content := { grid := b.term.grid, cursor := b.term.cursor } })
    ∧ (b.sync.term = b.term) ∧ (b.sync.size = b.size)
    ∧ (b.sync.written = b.written) ∧ (b.sync.ptyResizes = b.ptyResizes) := by
  exact ⟨rfl, rfl, rfl, rfl, rfl, rfl⟩

/-- A backend state whose terminal model is in alternate-screen mode but
with the alternate-scroll mode reset (DECRST 1007), as a full-screen
program may request. -/
def bAltScreenOnly : Backend Unit Unit :=
  { term := { mode := { altScreen := true, altScroll := false }, grid := (), cursor := ()
              scrollOps := [], resizeOps := [] }
    size := TerminalSize.default
    written := []
    ptyResizes := []
    last_content := { grid := (), cursor := () } }

/-- C2, counterexample: in a state whose model is in alternate-screen mode
(but with alternate-scroll reset), dispatching `Scroll(3)` writes nothing to
the process and moves the local scrollback view by 3 — the opposite of what
the claim asserts for alternate-screen mode, because the code's guard is
`mode().contains(ALTERNATE_SCROLL | ALT_SCREEN)`, requiring both flags. -/
theorem scroll_altscreen_counterexample :
    bAltScreenOnly.term.mode.altScreen = true
    ∧ (bAltScreenOnly.process_command (.Scroll 3)).1.written = []
    ∧ (bAltScreenOnly.process_command (.Scroll 3)).1.term.scrollOps
        = [ScrollOp.delta 3] := by
  exact ⟨rfl, by decide, by decide⟩

/-- C2, amended: for every nonzero i32 delta `d` other than the wrapping
value `-2^31`, dispatching `Scroll(d)` when the model has BOTH the
alternate-screen and alternate-scroll modes set writes exactly `|d|`
three-byte sequences (`ESC 'O' 'A'` for `d > 0`, `ESC 'O' 'B'` for `d < 0`)
in one notify buffer and does not move the local scrollback view; when the
two modes are not both set it moves the local scrollback view by `d` and
writes nothing; in both cases the snapshot is re-synchronized and the
returned action is `Redraw`. -/
theorem scroll_dispatch_amended {G C : Type} (b : Backend G C) (d : Int)
    (h0 : d ≠ 0) (hlo : -(2 ^ 31) < d) (hhi : d < 2 ^ 31) :
    ((b.term.mode.altScreen = true ∧ b.term.mode.altScroll = true) →
      (b.process_command (.Scroll d)).1.written
        = b.written ++ [List.flatten (List.replicate d.natAbs
            (if 0 < d then [27, 79, 65] else [27, 79, 66]))]
      ∧ (b.process_command (.Scroll d)).1.term.scrollOps = b.term.scrollOps)
    ∧ (¬(b.term.mode.altScreen = true ∧ b.term.mode.altScroll = true) →
      (b.process_command (.Scroll d)).1.term.scrollOps
        = b.term.scrollOps ++ [ScrollOp.delta d]
      ∧ (b.process_command (.Scroll d)).1.written = b.written)
    ∧ (b.process_command (.Scroll d)).1.last_content
        = { grid := b.term.grid, cursor := b.term.cursor }
    ∧ (b.process_command (.Scroll d)).2 = Action.Redraw := by
  have hpow : -((2 : Int) ^ 31) = -2147483648 := by norm_num
  rw [hpow] at hlo
  have hmin : d ≠ -2147483648 := by omega
  refine ⟨?_, ?_, ?_, rfl⟩
  · rintro ⟨hs, ha⟩
    constructor
    · by_cases hd : 0 < d <;>
        simp [Backend.process_command, Backend.scroll, Backend.internal_sync, h0, hs, ha,
          i32AbsIter, hmin, hd]
    · simp [Backend.process_command, Backend.scroll, Backend.internal_sync, h0, hs, ha]
  · intro hno
    have hcond : (b.term.mode.altScroll && b.term.mode.altScreen) = false := by
      cases hs : b.term.mode.altScreen <;> cases ha : b.term.mode.altScroll <;>
        simp_all
    constructor
    · simp [Backend.process_command, Backend.scroll, Backend.internal_sync, h0, hcond]
    · simp [Backend.process_command, Backend.scroll, Backend.internal_sync, h0, hcond]
  · cases hc : (b.term.mode.altScroll && b.term.mode.altScreen) <;>
      simp [Backend.process_command, Backend.scroll, Backend.internal_sync, h0, hc]

/-- A backend state whose model has both the alternate-screen and
alternate-scroll modes set (the alacritty default keeps ALTERNATE_SCROLL
set, and entering the alternate screen sets ALT_SCREEN). -/
def bAltBoth : Backend Unit Unit :=
  { term := { mode := { altScreen := true, altScroll := true }, grid := (), cursor := ()
              scrollOps := [], resizeOps := [] }
    size := TerminalSize.default
    written := []
    ptyResizes := []
    last_content := { grid := (), cursor := () } }

/-- C2, witness: the amended scroll theorem applied at the concrete state
`bAltBoth` with delta 3, all hypotheses discharged by computation. -/
theorem scroll_dispatch_amended_witness :
    (3 : Int) ≠ 0 ∧ -(2 ^ 31) < (3 : Int) ∧ (3 : Int) < 2 ^ 31 ∧
    (((bAltBoth.term.mode.altScreen = true ∧ bAltBoth.term.mode.altScroll = true) →
      (bAltBoth.process_command (.Scroll 3)).1.written
        = bAltBoth.written ++ [List.flatten (List.replicate (3 : Int).natAbs
            (if (0 : Int) < 3 then [27, 79, 65] else [27, 79, 66]))]
      ∧ (bAltBoth.process_command (.Scroll 3)).1.term.scrollOps = bAltBoth.term.scrollOps)
    ∧ (¬(bAltBoth.term.mode.altScreen = true ∧ bAltBoth.term.mode.altScroll = true) →
      (bAltBoth.process_command (.Scroll 3)).1.term.scrollOps
        = bAltBoth.term.scrollOps ++ [ScrollOp.delta 3]
      ∧ (bAltBoth.process_command (.Scroll 3)).1.written = bAltBoth.written)
    ∧ (bAltBoth.process_command (.Scroll 3)).1.last_content
        = { grid := bAltBoth.term.grid, cursor := bAltBoth.term.cursor }
    ∧ (bAltBoth.process_command (.Scroll 3)).2 = Action.Redraw) :=
  ⟨by decide, by decide, by decide,
   scroll_dispatch_amended bAltBoth 3 (by decide) (by decide) (by decide)⟩

/-- C4: a dispatched `Resize` whose recomputed column or line count is zero
leaves the stored counts unchanged, sends nothing to the process I/O
channel (neither an `on_resize` nor any bytes), does not resize the
terminal model, and still returns `Redraw` (dispatch is infallible, so no
error can be returned). -/
theorem resize_zero_area_noop {G C : Type} (b : Backend G C)
    (layout font : Option (Size F32))
    (h : ((b.size.applyLayout layout).applyFont font).candCols = 0
       ∨ ((b.size.applyLayout layout).applyFont font).candLines = 0) :
    ((b.process_command (.Resize layout font)).1.size.num_cols = b.size.num_cols)
    ∧ ((b.process_command (.Resize layout font)).1.size.num_lines = b.size.num_lines)
    ∧ ((b.process_command (.Resize layout font)).1.ptyResizes = b.ptyResizes)
    ∧ ((b.process_command (.Resize layout font)).1.written = b.written)
    ∧ ((b.process_command (.Resize layout font)).1.term.resizeOps = b.term.resizeOps)
    ∧ ((b.process_command (.Resize layout font)).2 = Action.Redraw) := by
  have hcond : ¬(0 < ((b.size.applyLayout layout).applyFont font).candLines
      ∧ 0 < ((b.size.applyLayout layout).applyFont font).candCols) := by omega
  refine ⟨?_, ?_, ?_, ?_, ?_, rfl⟩ <;>
    simp [Backend.process_command, Backend.resize, Backend.internal_sync, hcond,
      applyBoth_num_cols, applyBoth_num_lines]

/-- C4, witness: the zero-area resize theorem applied at a concrete state,
with layout 5x5 and cell size 10x10 (cell larger than layout, recomputed
counts zero). -/
theorem resize_zero_area_noop_witness :
    ((bAltBoth.size.applyLayout (some ⟨5, 5⟩)).applyFont (some ⟨10, 10⟩)).candCols = 0 ∧
    (((bAltBoth.process_command (.Resize (some ⟨5, 5⟩) (some ⟨10, 10⟩))).1.size.num_cols
        = bAltBoth.size.num_cols)
    ∧ ((bAltBoth.process_command (.Resize (some ⟨5, 5⟩) (some ⟨10, 10⟩))).1.size.num_lines
        = bAltBoth.size.num_lines)
    ∧ ((bAltBoth.process_command (.Resize (some ⟨5, 5⟩) (some ⟨10, 10⟩))).1.ptyResizes
        = bAltBoth.ptyResizes)
    ∧ ((bAltBoth.process_command (.Resize (some ⟨5, 5⟩) (some ⟨10, 10⟩))).1.written
        = bAltBoth.written)
    ∧ ((bAltBoth.process_command (.Resize (some ⟨5, 5⟩) (some ⟨10, 10⟩))).1.term.resizeOps
        = bAltBoth.term.resizeOps)
    ∧ ((bAltBoth.process_command (.Resize (some ⟨5, 5⟩) (some ⟨10, 10⟩))).2
        = Action.Redraw)) := by
  have hf : f32ToU16 10 = 10 := by norm_num [f32ToU16] <;> rfl
  have h : ((bAltBoth.size.applyLayout (some ⟨5, 5⟩)).applyFont (some ⟨10, 10⟩)).candCols
      = 0 := by
    show divFloorAsU16 5 (f32ToU16 10) = 0
    rw [hf]
    norm_num [divFloorAsU16]
  exact ⟨h, resize_zero_area_noop bAltBoth (some ⟨5, 5⟩) (some ⟨10, 10⟩) (Or.inl h)⟩

theorem applyBoth_idem_geom (x : TerminalSize) (l f : Option (Size F32)) :
    ((((x.applyLayout l).applyFont f).applyLayout l).applyFont f).layout_width
      = ((x.applyLayout l).applyFont f).layout_width
    ∧ ((((x.applyLayout l).applyFont f).applyLayout l).applyFont f).layout_height
      = ((x.applyLayout l).applyFont f).layout_height
    ∧ ((((x.applyLayout l).applyFont f).applyLayout l).applyFont f).cell_width
      = ((x.applyLayout l).applyFont f).cell_width
    ∧ ((((x.applyLayout l).applyFont f).applyLayout l).applyFont f).cell_height
      = ((x.applyLayout l).applyFont f).cell_height := by
  cases l <;> cases f <;> simp [TerminalSize.applyLayout, TerminalSize.applyFont]

/-- C8: dispatching the same `Resize` command twice in a row yields the
same stored column and line counts after each of the two dispatches. -/
theorem resize_idempotent {G C : Type} (b : Backend G C)
    (layout font : Option (Size F32)) :
    (((b.process_command (.Resize layout font)).1.process_command
        (.Resize layout font)).1.size.num_cols
      = (b.process_command (.Resize layout font)).1.size.num_cols)
    ∧ (((b.process_command (.Resize layout font)).1.process_command
        (.Resize layout font)).1.size.num_lines
      = (b.process_command (.Resize layout font)).1.size.num_lines) := by
  have hgeom := resize_size_geom b layout font
  have hstep := applyBoth_geom_congr (b.resize layout font).size
    ((b.size.applyLayout layout).applyFont font) layout font
    hgeom.1 hgeom.2.1 hgeom.2.2.1 hgeom.2.2.2
  have hidem := applyBoth_idem_geom b.size layout font
  have hcols : ((((b.resize layout font).internal_sync).size.applyLayout layout).applyFont
        font).candCols
      = ((b.size.applyLayout layout).applyFont font).candCols :=
    (candCols_congr _ _ hstep.1 hstep.2.2.1).trans
      (candCols_congr _ _ hidem.1 hidem.2.2.1)
  have hlines : ((((b.resize layout font).internal_sync).size.applyLayout layout).applyFont
        font).candLines
      = ((b.size.applyLayout layout).applyFont font).candLines :=
    (candLines_congr _ _ hstep.2.1 hstep.2.2.2).trans
      (candLines_congr _ _ hidem.2.1 hidem.2.2.2)
  show ((((b.resize layout font).internal_sync).resize layout font).size.num_cols
      = (b.resize layout font).size.num_cols)
    ∧ ((((b.resize layout font).internal_sync).resize layout font).size.num_lines
      = (b.resize layout font).size.num_lines)
  by_cases hp : 0 < ((b.size.applyLayout layout).applyFont font).candLines
      ∧ 0 < ((b.size.applyLayout layout).applyFont font).candCols
  · have hp1 : 0 < ((((b.resize layout font).internal_sync).size.applyLayout
          layout).applyFont font).candLines
        ∧ 0 < ((((b.resize layout font).internal_sync).size.applyLayout
          layout).applyFont font).candCols := by
      rw [hlines, hcols]; exact hp
    have h2 := (resize_counts ((b.resize layout font).internal_sync) layout font).1 hp1
    have h1 := (resize_counts b layout font).1 hp
    rw [h2.1, h2.2, hcols, hlines]
    exact ⟨h1.1.symm, h1.2.symm⟩
  · have hp1 : ¬(0 < ((((b.resize layout font).internal_sync).size.applyLayout
          layout).applyFont font).candLines
        ∧ 0 < ((((b.resize layout font).internal_sync).size.applyLayout
          layout).applyFont font).candCols) := by
      rw [hlines, hcols]; exact hp
    have h2 := (resize_counts ((b.resize layout font).internal_sync) layout font).2 hp1
    rw [h2.1, h2.2]
    exact ⟨rfl, rfl⟩

theorem scroll_size {G C : Type} (x : Backend G C) (d : Int) :
    (x.scroll d).size = x.size := by
  unfold Backend.scroll
  split
  · split <;> rfl
  · rfl

theorem process_command_counts {G C : Type} (b : Backend G C) (cmd : BackendCommand) :
    ((b.process_command cmd).1.size.num_cols = b.size.num_cols
      ∧ (b.process_command cmd).1.size.num_lines = b.size.num_lines)
    ∨ (0 < (b.process_command cmd).1.size.num_cols
      ∧ 0 < (b.process_command cmd).1.size.num_lines) := by
  cases cmd with
  | Resize layout font =>
    by_cases hp : 0 < ((b.size.applyLayout layout).applyFont font).candLines
        ∧ 0 < ((b.size.applyLayout layout).applyFont font).candCols
    · right
      have h := (resize_counts b layout font).1 hp
      have hc : (b.process_command (.Resize layout font)).1.size.num_cols
          = ((b.size.applyLayout layout).applyFont font).candCols := h.1
      have hl : (b.process_command (.Resize layout font)).1.size.num_lines
          = ((b.size.applyLayout layout).applyFont font).candLines := h.2
      rw [hc, hl]
      exact ⟨hp.2, hp.1⟩
    · left
      exact (resize_counts b layout font).2 hp
  | ProcessAlacrittyEvent e => cases e <;> exact Or.inl ⟨rfl, rfl⟩
  | Write input => exact Or.inl ⟨rfl, rfl⟩
  | Scroll d =>
    exact Or.inl ⟨congrArg TerminalSize.num_cols (scroll_size b d),
      congrArg TerminalSize.num_lines (scroll_size b d)⟩
  | MouseReport mode button point pressed => cases mode <;> exact Or.inl ⟨rfl, rfl⟩

/-- C5, counterexample: the state right after construction with a 10x10
font cell size is reachable, yet its stored column count (the default 80)
differs from the floor of the stored layout width (the default 80.0)
divided by the stored cell width (10): the constructor copies the default
counts without recomputing them from the new cell size. -/
theorem terminal_size_invariant_counterexample :
    Reachable (Backend.mkInitial (⟨10, 10⟩ : Size F32) () () ⟨false, true⟩)
    ∧ (Backend.mkInitial (⟨10, 10⟩ : Size F32) () () ⟨false, true⟩).size.num_cols = 80
    ∧ (Backend.mkInitial (⟨10, 10⟩ : Size F32) () () ⟨false, true⟩).size.layout_width = 80
    ∧ (Backend.mkInitial (⟨10, 10⟩ : Size F32) () () ⟨false, true⟩).size.cell_width = 10
    ∧ ⌊(80 : F32) / ((10 : Nat) : F32)⌋ = 8
    ∧ (80 : Nat) ≠ 8 := by
  have hcw : (Backend.mkInitial (⟨10, 10⟩ : Size F32) () () ⟨false, true⟩).size.cell_width
      = 10 := by
    show f32ToU16 10 = 10
    norm_num [f32ToU16] <;> rfl
  refine ⟨Reachable.construct _ _ _ _, rfl, rfl, hcw, ?_, by decide⟩
  norm_num

/-- C5, amended: in every reachable backend state the stored column and
line counts are nonzero; and whenever a `Resize` command recomputes two
positive candidate counts, the state after dispatching it has its stored
counts equal to the recomputation (the clamped floor of layout pixels over
cell pixels) from its own stored layout and cell sizes. The unamended
equality in all reachable states fails right after construction, where the
default counts are kept while the cell sizes come from the font. -/
theorem terminal_size_invariant_amended {G C : Type} (b : Backend G C) (hb : Reachable b) :
    (b.size.num_cols ≠ 0 ∧ b.size.num_lines ≠ 0)
    ∧ ∀ layout font,
        0 < ((b.size.applyLayout layout).applyFont font).candLines →
        0 < ((b.size.applyLayout layout).applyFont font).candCols →
        ((b.process_command (.Resize layout font)).1.size.num_cols
            = (b.process_command (.Resize layout font)).1.size.candCols
        ∧ (b.process_command (.Resize layout font)).1.size.num_lines
            = (b.process_command (.Resize layout font)).1.size.candLines) := by
  constructor
  · induction hb with
    | construct font_size g c m =>
      exact ⟨by show (80 : Nat) ≠ 0; decide, by show (50 : Nat) ≠ 0; decide⟩
    | dispatch b cmd hb ih =>
      rcases process_command_counts b cmd with ⟨h1, h2⟩ | ⟨h1, h2⟩
      · rw [h1, h2]; exact ih
      · exact ⟨Nat.pos_iff_ne_zero.mp h1, Nat.pos_iff_ne_zero.mp h2⟩
    | syncTick b hb ih => exact ih
    | modelFeed b t hb ih => exact ih
  · intro layout font h1 h2
    have h := (resize_counts b layout font).1 ⟨h1, h2⟩
    have hgeom := resize_size_geom b layout font
    have hc : (b.resize layout font).size.candCols
        = ((b.size.applyLayout layout).applyFont font).candCols :=
      candCols_congr _ _ hgeom.1 hgeom.2.2.1
    have hl : (b.resize layout font).size.candLines
        = ((b.size.applyLayout layout).applyFont font).candLines :=
      candLines_congr _ _ hgeom.2.1 hgeom.2.2.2
    constructor
    · show (b.resize layout font).size.num_cols = (b.resize layout font).size.candCols
      rw [hc, h.1]
    · show (b.resize layout font).size.num_lines = (b.resize layout font).size.candLines
      rw [hl, h.2]

/-- C5, witness: the amended invariant applied at the concrete reachable
state produced by constructing a backend with a 1x1 font cell size. -/
theorem terminal_size_invariant_amended_witness :
    ((Backend.mkInitial (⟨1, 1⟩ : Size F32) () () ⟨false, true⟩).size.num_cols ≠ 0
      ∧ (Backend.mkInitial (⟨1, 1⟩ : Size F32) () () ⟨false, true⟩).size.num_lines ≠ 0)
    ∧ ∀ layout font,
        0 < (((Backend.mkInitial (⟨1, 1⟩ : Size F32) () () ⟨false, true⟩).size.applyLayout
            layout).applyFont font).candLines →
        0 < (((Backend.mkInitial (⟨1, 1⟩ : Size F32) () () ⟨false, true⟩).size.applyLayout
            layout).applyFont font).candCols →
        (((Backend.mkInitial (⟨1, 1⟩ : Size F32) () () ⟨false, true⟩).process_command
              (.Resize layout font)).1.size.num_cols
            = ((Backend.mkInitial (⟨1, 1⟩ : Size F32) () () ⟨false, true⟩).process_command
              (.Resize layout font)).1.size.candCols
        ∧ ((Backend.mkInitial (⟨1, 1⟩ : Size F32) () () ⟨false, true⟩).process_command
              (.Resize layout font)).1.size.num_lines
            = ((Backend.mkInitial (⟨1, 1⟩ : Size F32) () () ⟨false, true⟩).process_command
              (.Resize layout font)).1.size.candLines) :=
  terminal_size_invariant_amended _ (Reachable.construct _ _ _ _)

/-- C3, counterexample: a `Resize` with layout width 1000000 and cell width
1 stores a column count of 65535, not the mathematical floor 1000000: the
recomputation is the saturating `f32`-to-`u16` cast of the floored
quotient, clamped into the `u16` range, not the bare floor the claim
states. -/
theorem resize_floor_counterexample :
    ((bAltBoth.process_command
        (.Resize (some ⟨1000000, 500⟩) (some ⟨1, 10⟩))).1.size.num_cols = 65535)
    ∧ ⌊(1000000 : F32) / ((1 : Nat) : F32)⌋ = 1000000
    ∧ (65535 : Nat) ≠ 1000000 := by
  have hf1 : f32ToU16 1 = 1 := by norm_num [f32ToU16] <;> rfl
  have hf10 : f32ToU16 10 = 10 := by norm_num [f32ToU16] <;> rfl
  have hcols : ((bAltBoth.size.applyLayout (some ⟨1000000, 500⟩)).applyFont
      (some ⟨1, 10⟩)).candCols = 65535 := by
    show divFloorAsU16 1000000 (f32ToU16 1) = 65535
    rw [hf1]
    norm_num [divFloorAsU16]
  have hlines : ((bAltBoth.size.applyLayout (some ⟨1000000, 500⟩)).applyFont
      (some ⟨1, 10⟩)).candLines = 50 := by
    show divFloorAsU16 500 (f32ToU16 10) = 50
    rw [hf10]
    norm_num [divFloorAsU16] <;> rfl
  have hp : 0 < ((bAltBoth.size.applyLayout (some ⟨1000000, 500⟩)).applyFont
        (some ⟨1, 10⟩)).candLines
      ∧ 0 < ((bAltBoth.size.applyLayout (some ⟨1000000, 500⟩)).applyFont
        (some ⟨1, 10⟩)).candCols := by
    rw [hcols, hlines]
    exact ⟨by decide, by decide⟩
  have h := (resize_counts bAltBoth (some ⟨1000000, 500⟩) (some ⟨1, 10⟩)).1 hp
  refine ⟨h.1.trans hcols, ?_, by decide⟩
  norm_num

/-- C3, amended: dispatching `Resize` first records whichever of the layout
pixel size and the (`u16`-cast) font cell size is present; it then
recomputes candidate counts as the floor of layout pixels over cell pixels
saturated into the `u16` range by the `f32`-to-`u16` cast (for positive
cell sizes and quotients whose floor lies in `[0, 65535]` this is exactly
the floor, so 800/10 gives 80, 500/10 gives 50 and 805/10 still gives 80);
it stores the counts, propagates the new size to the process I/O channel
and resizes the terminal model if and only if both candidates are positive;
and it always re-synchronizes the snapshot and returns `Redraw`. -/
theorem resize_dispatch_amended {G C : Type} (b : Backend G C)
    (layout font : Option (Size F32)) :
    (∀ s, layout = some s →
      (b.process_command (.Resize layout font)).1.size.layout_width = s.width
      ∧ (b.process_command (.Resize layout font)).1.size.layout_height = s.height)
    ∧ (layout = none →
      (b.process_command (.Resize layout font)).1.size.layout_width = b.size.layout_width
      ∧ (b.process_command (.Resize layout font)).1.size.layout_height
          = b.size.layout_height)
    ∧ (∀ s, font = some s →
      (b.process_command (.Resize layout font)).1.size.cell_width = f32ToU16 s.width
      ∧ (b.process_command (.Resize layout font)).1.size.cell_height = f32ToU16 s.height)
    ∧ (font = none →
      (b.process_command (.Resize layout font)).1.size.cell_width = b.size.cell_width
      ∧ (b.process_command (.Resize layout font)).1.size.cell_height = b.size.cell_height)
    ∧ (∀ (num : F32) (den : Nat), 0 < den → 0 ≤ ⌊num / (den : F32)⌋ →
        ⌊num / (den : F32)⌋ ≤ 65535 → (divFloorAsU16 num den : Int) = ⌊num / (den : F32)⌋)
    ∧ divFloorAsU16 800 10 = 80 ∧ divFloorAsU16 500 10 = 50 ∧ divFloorAsU16 805 10 = 80
    ∧ (0 < ((b.size.applyLayout layout).applyFont font).candLines
        ∧ 0 < ((b.size.applyLayout layout).applyFont font).candCols →
      (b.process_command (.Resize layout font)).1.size.num_cols
          = ((b.size.applyLayout layout).applyFont font).candCols
      ∧ (b.process_command (.Resize layout font)).1.size.num_lines
          = ((b.size.applyLayout layout).applyFont font).candLines
      ∧ (b.process_command (.Resize layout font)).1.ptyResizes
          = b.ptyResizes
            ++ [{ num_lines := ((b.size.applyLayout layout).applyFont font).candLines,
                  num_cols := ((b.size.applyLayout layout).applyFont font).candCols,
                  cell_width := ((b.size.applyLayout layout).applyFont font).cell_width,
                  cell_height := ((b.size.applyLayout layout).applyFont font).cell_height }]
      ∧ (b.process_command (.Resize layout font)).1.term.resizeOps
          = b.term.resizeOps ++ [(((b.size.applyLayout layout).applyFont font).candCols,
                                  ((b.size.applyLayout layout).applyFont font).candLines)])
    ∧ (¬(0 < ((b.size.applyLayout layout).applyFont font).candLines
        ∧ 0 < ((b.size.applyLayout layout).applyFont font).candCols) →
      (b.process_command (.Resize layout font)).1.size.num_cols = b.size.num_cols
      ∧ (b.process_command (.Resize layout font)).1.size.num_lines = b.size.num_lines
      ∧ (b.process_command (.Resize layout font)).1.ptyResizes = b.ptyResizes
      ∧ (b.process_command (.Resize layout font)).1.term.resizeOps = b.term.resizeOps)
    ∧ (b.process_command (.Resize layout font)).1.last_content
        = { grid := b.term.grid, cursor := b.term.cursor }
    ∧ (b.process_command (.Resize layout font)).2 = Action.Redraw := by
  have hgeom := resize_size_geom b layout font
  refine ⟨?_, ?_, ?_, ?_, ?_, ?_, ?_, ?_, ?_, ?_, ?_, rfl⟩
  · rintro s rfl
    have h1 : (b.process_command (.Resize (some s) font)).1.size.layout_width
        = ((b.size.applyLayout (some s)).applyFont font).layout_width := hgeom.1
    have h2 : (b.process_command (.Resize (some s) font)).1.size.layout_height
        = ((b.size.applyLayout (some s)).applyFont font).layout_height := hgeom.2.1
    rw [h1, h2]
    cases font <;> simp [TerminalSize.applyLayout, TerminalSize.applyFont]
  · rintro rfl
    have h1 : (b.process_command (.Resize none font)).1.size.layout_width
        = ((b.size.applyLayout none).applyFont font).layout_width := hgeom.1
    have h2 : (b.process_command (.Resize none font)).1.size.layout_height
        = ((b.size.applyLayout none).applyFont font).layout_height := hgeom.2.1
    rw [h1, h2]
    cases font <;> simp [TerminalSize.applyLayout, TerminalSize.applyFont]
  · rintro s rfl
    have h1 : (b.process_command (.Resize layout (some s))).1.size.cell_width
        = ((b.size.applyLayout layout).applyFont (some s)).cell_width := hgeom.2.2.1
    have h2 : (b.process_command (.Resize layout (some s))).1.size.cell_height
        = ((b.size.applyLayout layout).applyFont (some s)).cell_height := hgeom.2.2.2
    rw [h1, h2]
    exact ⟨rfl, rfl⟩
  · rintro rfl
    have h1 : (b.process_command (.Resize layout none)).1.size.cell_width
        = ((b.size.applyLayout layout).applyFont none).cell_width := hgeom.2.2.1
    have h2 : (b.process_command (.Resize layout none)).1.size.cell_height
        = ((b.size.applyLayout layout).applyFont none).cell_height := hgeom.2.2.2
    rw [h1, h2]
    cases layout <;> simp [TerminalSize.applyLayout, TerminalSize.applyFont]
  · intro num den hden hfl0 hfl65
    have hne : den ≠ 0 := Nat.pos_iff_ne_zero.mp hden
    unfold divFloorAsU16
    rw [if_neg hne]
    omega
  · norm_num [divFloorAsU16] <;> rfl
  · norm_num [divFloorAsU16] <;> rfl
  · norm_num [divFloorAsU16] <;> rfl
  · intro hp
    have h := (resize_counts b layout font).1 hp
    refine ⟨h.1, h.2, ?_, ?_⟩
    · show (b.resize layout font).ptyResizes = _
      simp [Backend.resize, hp, TerminalSize.toWindowSize]
    · show (b.resize layout font).term.resizeOps = _
      simp [Backend.resize, hp]
  · intro hp
    have h := (resize_counts b layout font).2 hp
    refine ⟨h.1, h.2, ?_, ?_⟩
    · show (b.resize layout font).ptyResizes = _
      simp [Backend.resize, hp]
    · show (b.resize layout font).term.resizeOps = _
      simp [Backend.resize, hp]
  · show ((b.resize layout font).internal_sync).last_content = _
    have hterm : (b.resize layout font).term.grid = b.term.grid
        ∧ (b.resize layout font).term.cursor = b.term.cursor := by
      by_cases hp : 0 < ((b.size.applyLayout layout).applyFont font).candLines
          ∧ 0 < ((b.size.applyLayout layout).applyFont font).candCols <;>
        simp [Backend.resize, hp]
    simp [Backend.internal_sync, hterm.1, hterm.2]

/-- C9, counterexample: a construction run in which spawning the shell
process succeeds but creating the pty event loop fails still fails (the
source also applies the `?` operator to `EventLoop::new`), contradicting
the claim that construction succeeds on every input where process spawning
succeeds. -/
theorem construction_failure_counterexample :
    Backend.tryNew (Except.ok () : Except Nat Unit) (Except.error 7)
      (⟨1, 1⟩ : Size F32) () () ⟨false, true⟩
      = (Except.error 7 : Except Nat (Backend Unit Unit)) := rfl

/-- C9, amended: backend construction succeeds if and only if both fallible
external steps — spawning the shell process (`tty::new`) and creating the
pty event loop (`EventLoop::new`) — succeed, in which case it yields the
fully initialized session; otherwise it propagates exactly the first error
encountered, in source order. -/
theorem construction_result_amended {E G C : Type} (spawnPty mkEventLoop : Except E Unit)
    (font_size : Size F32) (g : G) (c : C) (m : TermMode) :
    (Backend.tryNew spawnPty mkEventLoop font_size g c m
        = Except.ok (Backend.mkInitial font_size g c m)
      ↔ (spawnPty = Except.ok () ∧ mkEventLoop = Except.ok ()))
    ∧ (∀ e, Backend.tryNew spawnPty mkEventLoop font_size g c m = Except.error e
      ↔ (spawnPty = Except.error e
         ∨ (spawnPty = Except.ok () ∧ mkEventLoop = Except.error e))) := by
  cases spawnPty with
  | ok u =>
    cases u
    cases mkEventLoop with
    | ok v =>
      cases v
      have h : Backend.tryNew (Except.ok () : Except E Unit) (Except.ok ())
          font_size g c m
          = Except.ok (Backend.mkInitial (G := G) (C := C) font_size g c m) := rfl
      simp [h]
    | error e1 =>
      have h : Backend.tryNew (Except.ok () : Except E Unit) (Except.error e1)
          font_size g c m = (Except.error e1 : Except E (Backend G C)) := rfl
      simp [h]
  | error e0 =>
    cases mkEventLoop with
    | ok v =>
      cases v
      have h : Backend.tryNew (Except.error e0 : Except E Unit) (Except.ok ())
          font_size g c m = (Except.error e0 : Except E (Backend G C)) := rfl
      simp [h]
    | error e1 =>
      have h : Backend.tryNew (Except.error e0 : Except E Unit) (Except.error e1)
          font_size g c m = (Except.error e0 : Except E (Backend G C)) := rfl
      simp [h]

end TbdRewrite
